import Mathlib

/-!
Verification development for the ComplianceOracle repository.

The definitions below are a shallow embedding of the Python sources:
  - `src/compliance_oracle/models/schemas.py` (data model)
  - `src/compliance_oracle/documentation/state.py` (compliance state store)
  - `src/compliance_oracle/frameworks/manager.py` (framework catalog)
  - `src/compliance_oracle/frameworks/mapper.py` (mapping store and gap analysis)

Modelling conventions:
  - Python dicts become association lists (`List (String × α)`), preserving
    insertion order exactly as CPython dicts do; `dict.get` becomes an
    association lookup and `d[k] = v` an in-place replace-or-append update.
  - Python `datetime` values are represented by their ISO-format string
    (the serialization used by `model_dump(mode="json")` is a bijection on
    microsecond-precision datetimes), and each `datetime.utcnow()` call site
    becomes an explicit parameter of the embedded operation.
  - Python lists become Lean lists; Python sets are represented by
    deduplicated lists, and statements about them are phrased at the level
    of membership (CPython set iteration order is unspecified).
  - JSON documents become values of the `Json` inductive defined here.
-/

namespace ComplianceOracle

/-- `ControlStatus` from `schemas.py`: implementation status for a control. -/
inductive ControlStatus where
  | implemented
  | partialStatus
  | planned
  | not_applicable
  | not_addressed
deriving DecidableEq, Repr

/-- `ControlRelationship` from `schemas.py`: relationship between mapped controls. -/
inductive ControlRelationship where
  | equivalent
  | broader
  | narrower
  | related
deriving DecidableEq, Repr

/-- `EvidenceType` from `schemas.py`. -/
inductive EvidenceType where
  | config
  | code
  | document
  | url
  | screenshot
  | other
deriving DecidableEq, Repr

/-- Python `datetime` values, represented by their ISO-format string. -/
abbrev DateTime := String

/-- `Evidence` from `schemas.py`. `line_range` is the optional inclusive line range. -/
structure Evidence where
  type : EvidenceType
  path : String
  line_range : Option (Int × Int)
  description : String
deriving DecidableEq, Repr

/-- `ControlDocumentation` from `schemas.py`: one documentation record. -/
structure ControlDocumentation where
  control_id : String
  framework_id : String
  status : ControlStatus
  derived_status : Option ControlStatus
  derived_sources : List (List (String × String))
  implementation_summary : Option String
  evidence : List Evidence
  owner : Option String
  notes : Option String
  last_updated : DateTime
deriving DecidableEq, Repr

/-- `ComplianceState` from `schemas.py`: the persisted aggregate.  `controls` is
the dict keyed by `"framework_id:control_id"`, as an ordered association list. -/
structure ComplianceState where
  version : String
  project_name : Option String
  created_at : DateTime
  updated_at : DateTime
  controls : List (String × ControlDocumentation)
deriving DecidableEq, Repr

/-- Association-list lookup, mirroring Python `dict.__contains__` / subscript. -/
def assocGet (k : String) (l : List (String × α)) : Option α :=
  (l.find? (fun p => decide (p.1 = k))).map (·.2)

/-- Association-list update, mirroring Python `d[k] = v`: replace in place when
the key is present (keeping its position), append otherwise. -/
def assocPut (k : String) (v : α) : List (String × α) → List (String × α)
  | [] => [(k, v)]
  | (k', v') :: rest => if k' = k then (k, v) :: rest else (k', v') :: assocPut k v rest

/-- The `"framework_id:control_id"` composite key used by the state store. -/
def docKey (framework_id control_id : String) : String :=
  framework_id ++ ":" ++ control_id

/-- `ComplianceStateManager.document_control` from `state.py`.
`doc_now` and `save_now` are the two `datetime.utcnow()` calls (the one that
stamps `doc.last_updated`, and the one in `_save_state` that stamps
`state.updated_at`). -/
def document_control (state : ComplianceState) (doc : ControlDocumentation)
    (doc_now save_now : DateTime) : ComplianceState :=
  let key := docKey doc.framework_id doc.control_id
  let doc' :=
    match assocGet key state.controls with
    | some existing =>
        if doc.evidence = [] then { doc with evidence := existing.evidence } else doc
    | none => doc
  let doc'' := { doc' with last_updated := doc_now }
  { state with controls := assocPut key doc'' state.controls, updated_at := save_now }

/-- `ComplianceStateManager.link_evidence` from `state.py`.  Raising
`ValueError` becomes returning `Except.error` with the message; the source
raises before any mutation or save, so the error branch returns no new state. -/
def link_evidence (state : ComplianceState) (framework_id control_id : String)
    (evidence : Evidence) (doc_now save_now : DateTime) :
    Except String ComplianceState :=
  let key := docKey framework_id control_id
  match assocGet key state.controls with
  | none =>
      .error ("Control " ++ control_id ++ " is not documented. Use document_compliance first.")
  | some doc =>
      let doc' := { doc with evidence := doc.evidence ++ [evidence], last_updated := doc_now }
      .ok { state with controls := assocPut key doc' state.controls, updated_at := save_now }

/-- Python `needle in hay` on strings: substring containment. -/
def containsSub (needle hay : String) : Bool :=
  decide (needle.data <:+: hay.data)

/-- Python `s.startswith(pfx)`. -/
def strStartsWith (s pfx : String) : Bool :=
  pfx.data.isPrefixOf s.data

/-- Python `s.split(sep)` for a one-character separator. -/
def splitChar (sep : Char) : List Char → List (List Char)
  | [] => [[]]
  | c :: rest =>
      if c = sep then [] :: splitChar sep rest
      else
        match splitChar sep rest with
        | [] => [[c]]
        | g :: gs => (c :: g) :: gs

/-- Python `".".join(groups)`. -/
def joinDot : List (List Char) → List Char
  | [] => []
  | [g] => g
  | g :: gs => g ++ '.' :: joinDot gs

/-- Python's `x or y` for strings: `y` when `x` is empty, else `x`. -/
def orDefault (x d : String) : String :=
  if x = "" then d else x

/-- One entry of the flat "elements" catalog shape (`manager.py`).  Keys the
code reads with a bare subscript are plain fields; keys read through `.get`
are `Option`s (with `none` standing for an absent key).  `element_type` is
read as `e.get("element_type")` and only ever compared to string literals, so
an absent key is modelled as `""` (never equal to any of them). -/
structure RawElement where
  element_identifier : String
  element_type : String
  title : Option String
  text : Option String
  implementation_examples : Option (List String)
  informative_references : Option (List String)
  keywords : Option (List String)
deriving DecidableEq, Repr

/-- One entry of the top-level `functions` list of the flat "subcategories"
catalog shape. -/
structure RawFunc where
  id : String
  name : Option String
deriving DecidableEq, Repr

/-- One entry of the top-level `categories` list of the flat "subcategories"
catalog shape. -/
structure RawCat where
  id : String
  name : Option String
  function_id : Option String
deriving DecidableEq, Repr

/-- One subcategory record (used by the flat "subcategories" shape and, without
`category_id`, by the nested shape). -/
structure RawSub where
  id : Option String
  name : Option String
  description : Option String
  category_id : Option String
  implementation_examples : Option (List String)
  informative_references : Option (List String)
  keywords : Option (List String)
deriving DecidableEq, Repr

/-- One category of the nested "functions" catalog shape. -/
structure NestedCat where
  id : Option String
  name : Option String
  subcategories : Option (List RawSub)
deriving DecidableEq, Repr

/-- One function of the nested "functions" catalog shape. -/
structure NestedFunc where
  id : Option String
  name : Option String
  categories : Option (List NestedCat)
deriving DecidableEq, Repr

/-- One entry of the flat `controls` catalog shape (NIST 800-53 style). -/
structure RawCtrl where
  id : Option String
  name : Option String
  description : Option String
  family_id : Option String
  family_name : Option String
  implementation_examples : Option (List String)
  informative_references : Option (List String)
  keywords : Option (List String)
deriving DecidableEq, Repr

/-- A loaded framework catalog document, one constructor per raw input shape
that `FrameworkManager._extract_controls` distinguishes (in its detection
order: `response.elements`, then `subcategories`, then `functions`, then
`controls`). -/
inductive CatalogData where
  | elements (es : List RawElement)
  | flat (functions : List RawFunc) (categories : List RawCat) (subcategories : List RawSub)
  | nested (functions : List NestedFunc)
  | controls (cs : List RawCtrl)
deriving DecidableEq, Repr

/-- `Control` from `schemas.py`. -/
structure Control where
  id : String
  name : String
  description : String
  framework_id : String
  function_id : String
  function_name : String
  category_id : String
  category_name : String
  implementation_examples : List String
  informative_references : List String
  keywords : List String
deriving DecidableEq, Repr

/-- `ControlDetails` from `schemas.py`: a `Control` plus related controls and
heuristic reference mappings. -/
structure ControlDetails extends Control where
  related_controls : List String
  mappings : List (String × List String)
deriving DecidableEq, Repr

/-- Lookup in a dict comprehension `{e["element_identifier"]: e for e in …
if e.get("element_type") == etype}`: later duplicates overwrite, so the last
matching element wins. -/
def lookupElem (es : List RawElement) (etype k : String) : Option RawElement :=
  (es.filter (fun e => decide (e.element_type = etype))).reverse.find?
    (fun e => decide (e.element_identifier = k))

/-- `func.get("title", default)` on the result of a dict `.get(key, {})`. -/
def elemTitle (e : Option RawElement) (d : String) : String :=
  match e with
  | some el => el.title.getD d
  | none => d

/-- `".".join(sub_id.split(".")[:2]) if "." in sub_id else ""` from
`_extract_controls`. -/
def catIdOf (sub_id : String) : String :=
  if sub_id.data.contains '.' then ⟨joinDot ((splitChar '.' sub_id.data).take 2)⟩ else ""

/-- `cat_id.split(".")[0] if "." in cat_id else ""` from `_extract_controls`. -/
def funcIdOf (cat_id : String) : String :=
  if cat_id.data.contains '.' then ⟨(splitChar '.' cat_id.data).headD []⟩ else ""

/-- `ctrl_id.split("-")[0] if "-" in ctrl_id else ""` from `_extract_controls`. -/
def familyIdOf (ctrl_id : String) : String :=
  if ctrl_id.data.contains '-' then ⟨(splitChar '-' ctrl_id.data).headD []⟩ else ""

/-- The per-subcategory `Control` built by the flat "subcategories" branch of
`_extract_controls` (the loop body, hoisted into a named function). -/
def flatControlOf (fns : List RawFunc) (cats : List RawCat) (framework_id : String)
    (sub : RawSub) : Control :=
  let cat_id := sub.category_id.getD ""
  let cat := cats.reverse.find? (fun c => decide (c.id = cat_id))
  let func_id : String := match cat with
    | some c => c.function_id.getD ""
    | none => ""
  let func := fns.reverse.find? (fun f => decide (f.id = func_id))
  { id := sub.id.getD ""
    name := sub.name.getD (sub.id.getD "")
    description := sub.description.getD ""
    framework_id := framework_id
    function_id := func_id
    function_name := match func with
      | some f => f.name.getD func_id
      | none => func_id
    category_id := cat_id
    category_name := match cat with
      | some c => c.name.getD cat_id
      | none => cat_id
    implementation_examples := sub.implementation_examples.getD []
    informative_references := sub.informative_references.getD []
    keywords := sub.keywords.getD [] }

/-- `FrameworkManager._extract_controls` from `manager.py`. -/
def extract_controls (data : CatalogData) (framework_id : String) : List Control :=
  match data with
  | .elements es =>
      if framework_id = "nist-csf-2.0" then
        (es.filter (fun e => decide (e.element_type = "subcategory"))).map (fun e =>
          let sub_id := e.element_identifier
          let cat_id := catIdOf sub_id
          let cat := lookupElem es "category" cat_id
          let func_id := funcIdOf cat_id
          let func := lookupElem es "function" func_id
          { id := sub_id
            name := orDefault (e.title.getD sub_id) sub_id
            description := e.text.getD ""
            framework_id := framework_id
            function_id := func_id
            function_name := elemTitle func func_id
            category_id := cat_id
            category_name := elemTitle cat cat_id
            implementation_examples := e.implementation_examples.getD []
            informative_references := e.informative_references.getD []
            keywords := e.keywords.getD [] })
      else if framework_id = "nist-800-53-r5" then
        (es.filter (fun e => decide (e.element_type = "control"))).map (fun e =>
          let ctrl_id := e.element_identifier
          let family_id := familyIdOf ctrl_id
          let family := lookupElem es "family" family_id
          { id := ctrl_id
            name := orDefault (e.title.getD ctrl_id) ctrl_id
            description := e.text.getD ""
            framework_id := framework_id
            function_id := family_id
            function_name := elemTitle family family_id
            category_id := family_id
            category_name := elemTitle family family_id
            implementation_examples := e.implementation_examples.getD []
            informative_references := e.informative_references.getD []
            keywords := e.keywords.getD [] })
      else []
  | .flat fns cats subs =>
      subs.map (flatControlOf fns cats framework_id)
  | .nested fns =>
      fns.flatMap (fun func =>
        let func_id := func.id.getD ""
        let func_name := func.name.getD func_id
        (func.categories.getD []).flatMap (fun cat =>
          let cat_id := cat.id.getD ""
          let cat_name := cat.name.getD cat_id
          (cat.subcategories.getD []).map (fun sub =>
            { id := sub.id.getD ""
              name := sub.name.getD (sub.id.getD "")
              description := sub.description.getD ""
              framework_id := framework_id
              function_id := func_id
              function_name := func_name
              category_id := cat_id
              category_name := cat_name
              implementation_examples := sub.implementation_examples.getD []
              informative_references := sub.informative_references.getD []
              keywords := sub.keywords.getD [] })))
  | .controls cs =>
      cs.map (fun ctrl =>
        let family_id := ctrl.family_id.getD ""
        let family_name := ctrl.family_name.getD family_id
        { id := ctrl.id.getD ""
          name := ctrl.name.getD (ctrl.id.getD "")
          description := ctrl.description.getD ""
          framework_id := framework_id
          function_id := family_id
          function_name := family_name
          category_id := family_id
          category_name := family_name
          implementation_examples := ctrl.implementation_examples.getD []
          informative_references := ctrl.informative_references.getD []
          keywords := ctrl.keywords.getD [] })

/-- Python truthiness of an optional string argument (`if function_id:`). -/
def truthy : Option String → Bool
  | none => false
  | some s => !decide (s = "")

/-- `FrameworkManager.list_controls` from `manager.py`.  `data?` is the result
of `_load_framework` (`none` when the framework id is unmapped or its backing
document is absent). -/
def list_controls (data? : Option CatalogData) (framework_id : String)
    (function_id? category_id? : Option String) : List Control :=
  match data? with
  | none => []
  | some data =>
      let controls := extract_controls data framework_id
      let controls := if truthy function_id? then
          controls.filter (fun c => decide (c.function_id = function_id?.getD ""))
        else controls
      if truthy category_id? then
        controls.filter (fun c => decide (c.category_id = category_id?.getD ""))
      else controls

/-- `data.get("subcategories", [])`, as used by `_get_related_controls` and
`_get_control_mappings`: only the flat "subcategories" shape has the key. -/
def dataSubcategories : CatalogData → List RawSub
  | .flat _ _ subs => subs
  | _ => []

/-- `FrameworkManager._get_control_mappings` from `manager.py`. -/
def get_control_mappings (data : CatalogData) (control_id : String) :
    List (String × List String) :=
  let refs := (dataSubcategories data).flatMap (fun sub =>
    if sub.id = some control_id then
      (sub.informative_references.getD []).filter (fun ref =>
        containsSub "800-53" ref || containsSub "SP 800-53" ref)
    else [])
  if refs = [] then [] else [("nist-800-53-r5", refs)]

/-- `FrameworkManager._get_related_controls` from `manager.py`: the loop over
`data.get("subcategories", [])` breaks at the first entry whose explicit `id`
equals `control_id`, then collects the ids of the other entries sharing its
`category_id`. -/
def get_related_controls (data : CatalogData) (control_id : String) : List String :=
  match (dataSubcategories data).find? (fun sub => decide (sub.id = some control_id)) with
  | none => []
  | some sub =>
      let cat_id := sub.category_id.getD ""
      ((dataSubcategories data).filter (fun other =>
        decide (other.category_id.getD "" = cat_id) && decide (other.id.getD "" ≠ control_id))).map
        (fun o => o.id.getD "")

/-- `FrameworkManager.get_control_details` from `manager.py`. -/
def get_control_details (data? : Option CatalogData) (framework_id control_id : String) :
    Option ControlDetails :=
  match data? with
  | none => none
  | some data =>
      match (extract_controls data framework_id).find? (fun c => decide (c.id = control_id)) with
      | none => none
      | some ctrl =>
          some { toControl := ctrl
                 related_controls := get_related_controls data control_id
                 mappings := get_control_mappings data control_id }

/-- `ComplianceSummary` from `schemas.py`.  The `partial` field is renamed
`partialCnt` (`partial` is a Lean keyword).  `not_addressed` is computed by an
integer subtraction in the source and may be negative, hence `Int`;
`completion_percentage` is a Python float, embedded as `ℚ` (all the
arithmetic the source performs on it is exact on these inputs' scale). -/
structure ComplianceSummary where
  framework_id : String
  total_controls : Nat
  implemented : Nat
  partialCnt : Nat
  planned : Nat
  not_applicable : Nat
  not_addressed : Int
  completion_percentage : ℚ
deriving DecidableEq, Repr

/-- The per-status count loop of `get_summary`: number of state records whose
key starts with `framework_id + ":"` and whose status is `st`. -/
def count_status (controls : List (String × ControlDocumentation)) (pfx : String)
    (st : ControlStatus) : Nat :=
  controls.countP (fun p => strStartsWith p.1 pfx && decide (p.2.status = st))

/-- `ComplianceStateManager.get_summary` from `state.py`.  `catalog` is the
result of `list_controls(framework_id)` on the framework manager. -/
def get_summary (state : ComplianceState) (catalog : List Control)
    (framework_id : String) : Option ComplianceSummary :=
  let total_controls := catalog.length
  if total_controls = 0 then none
  else
    let pfx := framework_id ++ ":"
    let ci := count_status state.controls pfx .implemented
    let cp := count_status state.controls pfx .partialStatus
    let cpl := count_status state.controls pfx .planned
    let cna := count_status state.controls pfx .not_applicable
    let cnad := count_status state.controls pfx .not_addressed
    let applicable : Int := (total_controls : Int) - (cna : Int)
    let completion : ℚ :=
      if 0 < applicable then ((ci : ℚ) * 100 + (cp : ℚ) * 50) / (applicable : ℚ)
      else 100
    some { framework_id := framework_id
           total_controls := total_controls
           implemented := ci
           partialCnt := cp
           planned := cpl
           not_applicable := cna
           not_addressed := (total_controls : Int) - ((ci : Int) + cp + cpl + cna + cnad)
           completion_percentage := min 100 completion }

/-- `ControlMapping` from `schemas.py`. -/
structure ControlMapping where
  source_control_id : String
  source_framework_id : String
  target_control_id : String
  target_framework_id : String
  relationship : ControlRelationship
deriving DecidableEq, Repr

/-- One entry of an explicit mapping document
(`{source_control_id, target_control_id, relationship}`), with the
relationship as its raw string (`m.get("relationship", "related")` maps an
absent key to `"related"`, so a plain field with that default is faithful). -/
structure RawMapping where
  source_control_id : String
  target_control_id : String
  relationship : String
deriving DecidableEq, Repr

/-- The fixed relationship synonym table of `_load_mappings`
(`rel_map.get(rel_str, RELATED)`). -/
def relOfString (s : String) : ControlRelationship :=
  if s = "equivalent" then .equivalent
  else if s = "subset" then .narrower
  else if s = "narrower" then .narrower
  else if s = "superset" then .broader
  else if s = "broader" then .broader
  else if s = "related" then .related
  else .related

/-- Python word characters (`\w`) for the ASCII references the catalog holds:
letters, digits and underscore.  A `\b` holds where exactly one side is a word
character. -/
def isWordChar (c : Char) : Bool :=
  c.isAlphanum || c = '_'

/-- The `\b` before the first (word) character of a candidate match: satisfied
at the start of the string or after a non-word character. -/
def boundaryBefore : Option Char → Bool
  | none => true
  | some c => !isWordChar c

/-- Stage 3 of one regex-match attempt: after `XX-` and the digit run `ds`
have matched, try the optional `(\(\d+\))` group against `r2` and check the
trailing `\b`.  Mirrors the engine's backtracking: the group is tried
greedily, and dropped again when the trailing `\b` fails after the closing
parenthesis (`)` is a non-word character, so the boundary there holds only
when a word character follows); after the backtrack the `\b` sits after the
final digit and holds exactly when no word character follows (`(` qualifies).
`\d+` itself never backtracks productively: shrinking it would put a digit (a
word character) on both sides of the `\b`. -/
def tryMatchEnh (a b : Char) (ds r2 : List Char) : Option (List Char × List Char) :=
  match r2 with
  | '(' :: r3 =>
      let es := r3.takeWhile (·.isDigit)
      let r4 := r3.dropWhile (·.isDigit)
      match r4 with
      | ')' :: r5 =>
          if !es.isEmpty && (match r5 with
              | [] => false
              | c :: _ => isWordChar c) then
            some (a :: b :: '-' :: (ds ++ '(' :: (es ++ [')'])), r5)
          else
            some (a :: b :: '-' :: ds, r2)
      | _ => some (a :: b :: '-' :: ds, r2)
  | c :: _ =>
      if isWordChar c then none else some (a :: b :: '-' :: ds, r2)
  | [] => some (a :: b :: '-' :: ds, [])

/-- Stage 2: after `XX-` has matched, require a non-empty greedy digit run. -/
def tryMatchDigits (a b : Char) (rest : List Char) : Option (List Char × List Char) :=
  let ds := rest.takeWhile (·.isDigit)
  let r2 := rest.dropWhile (·.isDigit)
  if ds.isEmpty then none else tryMatchEnh a b ds r2

/-- Stage 1: require two uppercase letters followed by a hyphen. -/
def tryMatchCore : List Char → Option (List Char × List Char)
  | a :: b :: '-' :: rest =>
      if a.isUpper && b.isUpper then tryMatchDigits a b rest else none
  | _ => none

/-- One attempt of Python's regex engine to match
`\b([A-Z]{2})-(\d+)(?:\((\d+)\))?\b` at the current position, given the
previous character (`prev`).  Returns the matched text and the remaining
input. -/
def tryMatch (prev : Option Char) (s : List Char) : Option (List Char × List Char) :=
  if !boundaryBefore prev then none else tryMatchCore s

/-- The claim's "two-letter-family + hyphen + number + optional parenthesized
enhancement" form, as a predicate on the characters of an id. -/
def idShapeB (l : List Char) : Bool :=
  match l with
  | a :: b :: '-' :: rest =>
      a.isUpper && b.isUpper &&
        (let ds := rest.takeWhile (·.isDigit)
         let r := rest.dropWhile (·.isDigit)
         !ds.isEmpty &&
           (r.isEmpty ||
             (match r with
              | '(' :: r2 =>
                  let es := r2.takeWhile (·.isDigit)
                  let r3 := r2.dropWhile (·.isDigit)
                  !es.isEmpty && decide (r3 = [')'])
              | _ => false)))
  | _ => false

/-- The scan loop of `re.findall`: try a match at every position, and continue
after the end of each match.  `fuel` bounds the recursion; every step consumes
at least one character, so `s.length + 1` fuel never runs out. -/
def findIdsAux : Nat → Option Char → List Char → List (List Char)
  | 0, _, _ => []
  | _, _, [] => []
  | fuel + 1, prev, c :: rest =>
      match tryMatch prev (c :: rest) with
      | some (matched, r) =>
          matched :: findIdsAux fuel (some (matched.getLastD c)) r
      | none => findIdsAux fuel (some c) rest

/-- `re.findall(r"\b([A-Z]{2})-(\d+)(?:\((\d+)\))?\b", reference)`, with the
matched id rebuilt from its groups exactly as `_extract_control_ids` does
(`f"{family}-{number}({enhancement})"` when the enhancement group matched,
`f"{family}-{number}"` otherwise — in both cases the matched text itself). -/
def findControlIds (reference : String) : List String :=
  (findIdsAux (reference.data.length + 1) none reference.data).map (fun l => ⟨l⟩)

/-- `FrameworkMapper._extract_control_ids` from `mapper.py`. -/
def extract_control_ids (reference : String) (target_framework : String) : List String :=
  if target_framework = "nist-800-53-r5" then
    if !containsSub "800-53" reference && !containsSub "SP 800-53" reference then []
    else findControlIds reference
  else []

/-- `FrameworkMapper._generate_mappings_from_references` from `mapper.py`. -/
def generate_mappings_from_references (data? : Option CatalogData)
    (source_framework target_framework : String) : List ControlMapping :=
  (list_controls data? source_framework none none).flatMap (fun ctrl =>
    match get_control_details data? source_framework ctrl.id with
    | none => []
    | some details =>
        details.informative_references.flatMap (fun ref =>
          (extract_control_ids ref target_framework).map (fun target_id =>
            { source_control_id := ctrl.id
              source_framework_id := source_framework
              target_control_id := target_id
              target_framework_id := target_framework
              relationship := .related })))

/-- `FrameworkMapper._load_mappings` from `mapper.py` (one uncached load).
`mapping_doc?` is the parsed explicit mapping document when
`{source}_to_{target}.json` exists, `none` otherwise; `data?` is the source
framework's catalog document. -/
def load_mappings (mapping_doc? : Option (List RawMapping)) (data? : Option CatalogData)
    (source_framework target_framework : String) : List ControlMapping :=
  match mapping_doc? with
  | some doc =>
      doc.map (fun m =>
        { source_control_id := m.source_control_id
          source_framework_id := source_framework
          target_control_id := m.target_control_id
          target_framework_id := target_framework
          relationship := relOfString m.relationship })
  | none => generate_mappings_from_references data? source_framework target_framework

/-- Insertion step of `sortStrings`. -/
def insertSorted (s : String) : List String → List String
  | [] => [s]
  | t :: ts => if s ≤ t then s :: t :: ts else t :: insertSorted s ts

/-- Python `sorted` on a set of strings: ascending lexicographic order of the
deduplicated elements. -/
def sortStrings (l : List String) : List String :=
  l.dedup.foldr insertSorted []

/-- The reason recorded with a `gaps` entry of `analyze_gap` (the source
stores it as a formatted string; the structured content is kept here). -/
inductive GapReason where
  | no_mapping
  | only_related (mapped_from : List String)
  | not_implemented (sources : List String)
deriving DecidableEq, Repr

/-- The classification `analyze_gap` assigns to one target control. -/
inductive Bucket where
  | fully_covered (covered_by : List String) (rel_summary : String)
  | partially_covered (covered_by missing_coverage : List String) (rel_summary : String)
  | gap (reason : GapReason)
deriving DecidableEq, Repr

/-- The `eq + broader` grouping of `analyze_gap` (the local variables of the
classification loop are hoisted into named definitions here). -/
def eq_broader_of (ms : List ControlMapping) : List ControlMapping :=
  ms.filter (fun m => decide (m.relationship = .equivalent))
    ++ ms.filter (fun m => decide (m.relationship = .broader))

/-- The `narrower` grouping of `analyze_gap`. -/
def narrower_of (ms : List ControlMapping) : List ControlMapping :=
  ms.filter (fun m => decide (m.relationship = .narrower))

/-- The `related` grouping of `analyze_gap`. -/
def related_of (ms : List ControlMapping) : List ControlMapping :=
  ms.filter (fun m => decide (m.relationship = .related))

/-- `{m.source_control_id for m in l}`: the set of source ids of a mapping
list, as a deduplicated list. -/
def sources_of (l : List ControlMapping) : List String :=
  (l.map (·.source_control_id)).dedup

/-- `[s for s in sources if s in current_implemented]`. -/
def implemented_filter (implemented sources : List String) : List String :=
  sources.filter (fun s => decide (s ∈ implemented))

/-- `[s for s in sources if s not in current_implemented]`. -/
def missing_filter (implemented sources : List String) : List String :=
  sources.filter (fun s => !decide (s ∈ implemented))

/-- The classification step of `FrameworkMapper.analyze_gap` for one target
control, given the mappings whose target is that control
(`mappings_for_target`) and the implemented set.  Python's set comprehensions
over mapping lists become deduplicated lists of source ids; the statements
proved about the resulting lists are membership-level, since set iteration
order is unspecified. -/
def classify_control (implemented : List String) (ms : List ControlMapping) : Bucket :=
  if ms.isEmpty then .gap .no_mapping
  else
    let implemented_eq_broader := implemented_filter implemented (sources_of (eq_broader_of ms))
    let missing_eq_broader := missing_filter implemented (sources_of (eq_broader_of ms))
    if !(eq_broader_of ms).isEmpty && !implemented_eq_broader.isEmpty
        && missing_eq_broader.isEmpty then
      .fully_covered implemented_eq_broader "equivalent/broader mappings fully implemented"
    else if !(eq_broader_of ms).isEmpty && !implemented_eq_broader.isEmpty then
      .partially_covered implemented_eq_broader missing_eq_broader
        "some equivalent/broader mappings implemented"
    else
      let implemented_narrow := implemented_filter implemented (sources_of (narrower_of ms))
      let missing_narrow := missing_filter implemented (sources_of (narrower_of ms))
      if !(narrower_of ms).isEmpty && !implemented_narrow.isEmpty then
        .partially_covered implemented_narrow missing_narrow
          "source controls are narrower than target; partial coverage inferred"
      else if !(related_of ms).isEmpty then
        .gap (.only_related (sortStrings ((related_of ms).map (·.source_control_id))))
      else
        .gap (.not_implemented (sortStrings (ms.map (·.source_control_id))))

/-- One entry of `already_covered` in the gap-analysis result. -/
structure CoveredEntry where
  control_id : String
  control_name : String
  covered_by : List String
  rel_summary : String
deriving DecidableEq, Repr

/-- One entry of `partially_covered` in the gap-analysis result. -/
structure PartialEntry where
  control_id : String
  control_name : String
  covered_by : List String
  missing_coverage : List String
  rel_summary : String
deriving DecidableEq, Repr

/-- One entry of `gaps` in the gap-analysis result. -/
structure GapEntry where
  control_id : String
  control_name : String
  description : String
  reason : GapReason
deriving DecidableEq, Repr

/-- The `summary` dict of `GapAnalysisResult`. -/
structure GapSummary where
  total_target_controls : Nat
  fully_covered : Nat
  partially_covered : Nat
  gaps : Nat
  coverage_percentage : ℚ
deriving DecidableEq, Repr

/-- `GapAnalysisResult` from `schemas.py`, with the three bucket lists and the
summary. -/
structure GapAnalysisResult where
  current_framework : String
  target_framework : String
  already_covered : List CoveredEntry
  partially_covered : List PartialEntry
  gaps : List GapEntry
  summary : GapSummary
deriving DecidableEq, Repr

/-- Round half to even on rationals: the rounding Python's `round` applies. -/
def roundHalfEven (q : ℚ) : ℤ :=
  if q - ⌊q⌋ = 1 / 2 then (if ⌊q⌋ % 2 = 0 then ⌊q⌋ else ⌊q⌋ + 1) else round q

/-- Python `round(x, 1)`. -/
def pyRound1 (q : ℚ) : ℚ :=
  (roundHalfEven (q * 10) : ℚ) / 10

/-- `target_to_mappings.get(target_ctrl.id, [])`: the mappings whose target is
the given control id, in document order (`setdefault`-append grouping preserves
it). -/
def mappings_for (mappings : List ControlMapping) (target_id : String) : List ControlMapping :=
  mappings.filter (fun m => decide (m.target_control_id = target_id))

/-- The classification and aggregation loop of `FrameworkMapper.analyze_gap`
(`mapper.py`), given the already-computed implemented set, mapping list and
target-control list. -/
def analyze_gap (current_framework target_framework : String)
    (implemented : List String) (mappings : List ControlMapping)
    (target_controls : List Control) : GapAnalysisResult :=
  let already := target_controls.filterMap (fun t =>
    match classify_control implemented (mappings_for mappings t.id) with
    | .fully_covered cb rs => some ⟨t.id, t.name, cb, rs⟩
    | _ => none)
  let partials := target_controls.filterMap (fun t =>
    match classify_control implemented (mappings_for mappings t.id) with
    | .partially_covered cb mc rs => some ⟨t.id, t.name, cb, mc, rs⟩
    | _ => none)
  let gapList := target_controls.filterMap (fun t =>
    match classify_control implemented (mappings_for mappings t.id) with
    | .gap r => some ⟨t.id, t.name, t.description, r⟩
    | _ => none)
  { current_framework := current_framework
    target_framework := target_framework
    already_covered := already
    partially_covered := partials
    gaps := gapList
    summary :=
      { total_target_controls := target_controls.length
        fully_covered := already.length
        partially_covered := partials.length
        gaps := gapList.length
        coverage_percentage := pyRound1
          (if target_controls.isEmpty then 0
           else ((already.length : ℚ) + (partials.length : ℚ) * 0.5)
                  / (target_controls.length : ℚ) * 100) } }

/-- Step 1 of `analyze_gap` in documented-state mode: every control of the
current framework whose documentation status is `implemented` or
`not_applicable`. -/
def implemented_set (state : ComplianceState) (current_framework : String) : List String :=
  state.controls.filterMap (fun p =>
    if strStartsWith p.1 (current_framework ++ ":")
        && (decide (p.2.status = .implemented) || decide (p.2.status = .not_applicable)) then
      some p.2.control_id
    else none)

/-- `FrameworkMapper.analyze_gap` end to end: mapping resolution (step 2),
implemented-set computation (step 1), classification and aggregation. -/
def analyze_gap_run (mapping_doc? : Option (List RawMapping))
    (source_data? target_data? : Option CatalogData)
    (current_framework target_framework : String)
    (use_documented_state : Bool) (state : ComplianceState) : GapAnalysisResult :=
  let mappings := load_mappings mapping_doc? source_data? current_framework target_framework
  let target_controls := list_controls target_data? target_framework none none
  let implemented :=
    if use_documented_state then implemented_set state current_framework
    else (list_controls source_data? current_framework none none).map (·.id)
  analyze_gap current_framework target_framework implemented mappings target_controls

/-- JSON documents, as written by `json.dump` in `_save_state` and read back
by `json.load` in `_load_state`.  Object member order is the dict insertion
order on both sides. -/
inductive Json where
  | null
  | str (s : String)
  | num (n : Int)
  | arr (elems : List Json)
  | obj (fields : List (String × Json))

/-- `model_dump(mode="json")` of a `ControlStatus`: its value string. -/
def dumpStatus : ControlStatus → Json
  | .implemented => .str "implemented"
  | .partialStatus => .str "partial"
  | .planned => .str "planned"
  | .not_applicable => .str "not_applicable"
  | .not_addressed => .str "not_addressed"

/-- Validation of a `ControlStatus` value string. -/
def parseStatus : Json → Option ControlStatus
  | .str "implemented" => some .implemented
  | .str "partial" => some .partialStatus
  | .str "planned" => some .planned
  | .str "not_applicable" => some .not_applicable
  | .str "not_addressed" => some .not_addressed
  | _ => none

/-- `model_dump(mode="json")` of an `EvidenceType`: its value string. -/
def dumpEvidenceType : EvidenceType → Json
  | .config => .str "config"
  | .code => .str "code"
  | .document => .str "document"
  | .url => .str "url"
  | .screenshot => .str "screenshot"
  | .other => .str "other"

/-- Validation of an `EvidenceType` value string. -/
def parseEvidenceType : Json → Option EvidenceType
  | .str "config" => some .config
  | .str "code" => some .code
  | .str "document" => some .document
  | .str "url" => some .url
  | .str "screenshot" => some .screenshot
  | .str "other" => some .other
  | _ => none

/-- Dump of an optional string field (`None` becomes JSON null). -/
def dumpOptStr : Option String → Json
  | none => .null
  | some s => .str s

/-- Validation of an optional string field. -/
def parseOptStr : Json → Option (Option String)
  | .null => some none
  | .str s => some (some s)
  | _ => none

/-- Dump of `line_range` (`tuple[int, int] | None` becomes null or a
two-element array). -/
def dumpLineRange : Option (Int × Int) → Json
  | none => .null
  | some (a, b) => .arr [.num a, .num b]

/-- Validation of `line_range`. -/
def parseLineRange : Json → Option (Option (Int × Int))
  | .null => some none
  | .arr [.num a, .num b] => some (some (a, b))
  | _ => none

/-- `model_dump(mode="json")` of an `Evidence`. -/
def dumpEvidence (e : Evidence) : Json :=
  .obj [("type", dumpEvidenceType e.type),
        ("path", .str e.path),
        ("line_range", dumpLineRange e.line_range),
        ("description", .str e.description)]

/-- Validation of an `Evidence` document of the dumped shape (pydantic's
`model_validate` is field-name-based and agrees with this on every document
`_save_state` writes). -/
def parseEvidence : Json → Option Evidence
  | .obj [("type", jt), ("path", .str p), ("line_range", jlr), ("description", .str d)] =>
      match parseEvidenceType jt, parseLineRange jlr with
      | some t, some lr => some ⟨t, p, lr, d⟩
      | _, _ => none
  | _ => none

/-- Elementwise validation of a JSON array. -/
def parseList (f : Json → Option α) : List Json → Option (List α)
  | [] => some []
  | j :: js =>
      match f j, parseList f js with
      | some a, some as => some (a :: as)
      | _, _ => none

/-- Dump of one `derived_sources` entry (a `dict[str, str]`). -/
def dumpStrPairs (l : List (String × String)) : Json :=
  .obj (l.map (fun p => (p.1, .str p.2)))

/-- Validation of the members of a `dict[str, str]` object. -/
def parseStrFields : List (String × Json) → Option (List (String × String))
  | [] => some []
  | (k, .str v) :: rest => (parseStrFields rest).map (fun tl => (k, v) :: tl)
  | _ => none

/-- Validation of one `derived_sources` entry. -/
def parseStrPairs : Json → Option (List (String × String))
  | .obj fields => parseStrFields fields
  | _ => none

/-- `model_dump(mode="json")` of a `ControlDocumentation` (field order is the
model's declaration order; `last_updated` becomes its ISO string, which this
embedding uses as the datetime value itself). -/
def dumpDoc (d : ControlDocumentation) : Json :=
  .obj [("control_id", .str d.control_id),
        ("framework_id", .str d.framework_id),
        ("status", dumpStatus d.status),
        ("derived_status", match d.derived_status with
          | none => .null
          | some st => dumpStatus st),
        ("derived_sources", .arr (d.derived_sources.map dumpStrPairs)),
        ("implementation_summary", dumpOptStr d.implementation_summary),
        ("evidence", .arr (d.evidence.map dumpEvidence)),
        ("owner", dumpOptStr d.owner),
        ("notes", dumpOptStr d.notes),
        ("last_updated", .str d.last_updated)]

/-- Validation of the optional `derived_status` field. -/
def parseOptStatus : Json → Option (Option ControlStatus)
  | .null => some none
  | j => (parseStatus j).map some

/-- Validation of a `ControlDocumentation` document of the dumped shape. -/
def parseDoc : Json → Option ControlDocumentation
  | .obj [("control_id", .str cid), ("framework_id", .str fid), ("status", jst),
          ("derived_status", jds), ("derived_sources", .arr jdss),
          ("implementation_summary", jis), ("evidence", .arr jev),
          ("owner", jow), ("notes", jno), ("last_updated", .str lu)] =>
      match parseStatus jst, parseOptStatus jds, parseList parseStrPairs jdss,
            parseOptStr jis, parseList parseEvidence jev, parseOptStr jow,
            parseOptStr jno with
      | some st, some ds, some dss, some isum, some ev, some ow, some no =>
          some ⟨cid, fid, st, ds, dss, isum, ev, ow, no, lu⟩
      | _, _, _, _, _, _, _ => none
  | _ => none

/-- `_save_state`'s document for a whole `ComplianceState`
(`model_dump(mode="json")` then `json.dump`). -/
def dumpState (s : ComplianceState) : Json :=
  .obj [("version", .str s.version),
        ("project_name", dumpOptStr s.project_name),
        ("created_at", .str s.created_at),
        ("updated_at", .str s.updated_at),
        ("controls", .obj (s.controls.map (fun p => (p.1, dumpDoc p.2))))]

/-- Validation of the members of the control-keyed `controls` object. -/
def parseDocFields : List (String × Json) → Option (List (String × ControlDocumentation))
  | [] => some []
  | (k, j) :: rest =>
      match parseDoc j, parseDocFields rest with
      | some d, some tl => some ((k, d) :: tl)
      | _, _ => none

/-- `_load_state`'s reload: `json.load` then
`ComplianceState.model_validate`, specified on documents of the dumped shape. -/
def parseState : Json → Option ComplianceState
  | .obj [("version", .str v), ("project_name", jpn), ("created_at", .str ca),
          ("updated_at", .str ua), ("controls", .obj fields)] =>
      match parseOptStr jpn, parseDocFields fields with
      | some pn, some docs => some ⟨v, pn, ca, ua, docs⟩
      | _, _ => none
  | _ => none

/-- A minimal catalog control used in concrete instances. -/
def sampleControl : Control :=
  ⟨"c1", "Control 1", "desc", "fw", "f", "F", "cat", "Cat", [], [], []⟩

/-- A nested-shape catalog with two subcategories `A`, `B` in one category. -/
def exNestedCatalog : CatalogData :=
  .nested [⟨some "F", some "Func",
    some [⟨some "C", some "Cat",
      some [⟨some "A", some "ControlA", some "d", none, some [], some [], some []⟩,
            ⟨some "B", some "ControlB", some "d", none, some [], some [], some []⟩]⟩]⟩]

/-- A flat-shape catalog with two subcategories `A`, `B` in category `C`. -/
def exFlatCatalog : CatalogData :=
  .flat [⟨"F", some "Func"⟩] [⟨"C", some "Cat", some "F"⟩]
    [⟨some "A", some "ControlA", some "d", some "C", some [], some [], some []⟩,
     ⟨some "B", some "ControlB", some "d", some "C", some [], some [], some []⟩]

/-! ### Helper lemmas -/

theorem assocGet_assocPut_self (k : String) (v : α) (l : List (String × α)) :
    assocGet k (assocPut k v l) = some v := by
  induction l with
  | nil => simp [assocGet, assocPut]
  | cons p rest ih =>
      obtain ⟨k', v'⟩ := p
      by_cases h : k' = k
      · subst h
        simp [assocGet, assocPut]
      · simp only [assocPut, if_neg h]
        simpa [assocGet, List.find?, h] using ih

/-! ### Claims about `document_control` and `link_evidence` -/

/-- C5: when a record already exists for the `(framework, control)` key and
`document_control` is called with an empty incoming evidence list, the stored
record's evidence equals the previously stored evidence list. -/
theorem document_control_empty_evidence_preserved
    (state : ComplianceState) (doc : ControlDocumentation) (doc_now save_now : DateTime)
    (existing : ControlDocumentation)
    (hex : assocGet (docKey doc.framework_id doc.control_id) state.controls = some existing)
    (hempty : doc.evidence = []) :
    ∃ stored : ControlDocumentation,
      assocGet (docKey doc.framework_id doc.control_id)
          (document_control state doc doc_now save_now).controls = some stored ∧
        stored.evidence = existing.evidence := by
  refine ⟨{ doc with evidence := existing.evidence, last_updated := doc_now }, ?_, rfl⟩
  simp only [document_control, hex, if_pos hempty]
  exact assocGet_assocPut_self _ _ _

/-- Closed instance of `document_control_empty_evidence_preserved`: a second
documentation call with empty evidence keeps the evidence written first. -/
theorem document_control_empty_evidence_preserved_witness :
    ∃ stored : ControlDocumentation,
      assocGet (docKey "fw" "c1")
          (document_control
            ⟨"1.0", none, "t0", "t0",
              [("fw:c1", ⟨"c1", "fw", .implemented, none, [], none,
                [⟨.code, "a.py", some (1, 2), "handler"⟩], none, none, "t1"⟩)]⟩
            ⟨"c1", "fw", .implemented, none, [], none, [], none, none, "t1"⟩
            "t2" "t2").controls = some stored ∧
      stored.evidence = [⟨.code, "a.py", some (1, 2), "handler"⟩] :=
  document_control_empty_evidence_preserved
    ⟨"1.0", none, "t0", "t0",
      [("fw:c1", ⟨"c1", "fw", .implemented, none, [], none,
        [⟨.code, "a.py", some (1, 2), "handler"⟩], none, none, "t1"⟩)]⟩
    ⟨"c1", "fw", .implemented, none, [], none, [], none, none, "t1"⟩
    "t2" "t2"
    ⟨"c1", "fw", .implemented, none, [], none,
      [⟨.code, "a.py", some (1, 2), "handler"⟩], none, none, "t1"⟩
    (by decide) rfl

/-- C10: when `document_control` is called with a non-empty incoming evidence
list, the stored record's evidence is exactly the incoming list (prior
evidence for the key, if any, is fully replaced). -/
theorem document_control_nonempty_evidence_replaces
    (state : ComplianceState) (doc : ControlDocumentation) (doc_now save_now : DateTime)
    (hne : doc.evidence ≠ []) :
    ∃ stored : ControlDocumentation,
      assocGet (docKey doc.framework_id doc.control_id)
          (document_control state doc doc_now save_now).controls = some stored ∧
        stored.evidence = doc.evidence := by
  refine ⟨{ doc with last_updated := doc_now }, ?_, rfl⟩
  simp only [document_control]
  cases hget : assocGet (docKey doc.framework_id doc.control_id) state.controls with
  | none => exact assocGet_assocPut_self _ _ _
  | some existing =>
      simp only [if_neg hne]
      exact assocGet_assocPut_self _ _ _

/-- Closed instance of `document_control_nonempty_evidence_replaces`: a second
call with one new evidence entry replaces the two entries stored before. -/
theorem document_control_nonempty_evidence_replaces_witness :
    ∃ stored : ControlDocumentation,
      assocGet (docKey "fw" "c1")
          (document_control
            ⟨"1.0", none, "t0", "t0",
              [("fw:c1", ⟨"c1", "fw", .implemented, none, [], none,
                [⟨.code, "a.py", some (1, 2), "old"⟩, ⟨.url, "u", none, "old2"⟩],
                none, none, "t1"⟩)]⟩
            ⟨"c1", "fw", .implemented, none, [], none,
              [⟨.document, "d.md", none, "new"⟩], none, none, "t1"⟩
            "t2" "t2").controls = some stored ∧
      stored.evidence = [⟨.document, "d.md", none, "new"⟩] :=
  document_control_nonempty_evidence_replaces
    ⟨"1.0", none, "t0", "t0",
      [("fw:c1", ⟨"c1", "fw", .implemented, none, [], none,
        [⟨.code, "a.py", some (1, 2), "old"⟩, ⟨.url, "u", none, "old2"⟩],
        none, none, "t1"⟩)]⟩
    ⟨"c1", "fw", .implemented, none, [], none,
      [⟨.document, "d.md", none, "new"⟩], none, none, "t1"⟩
    "t2" "t2" (by decide)

/-- C6: `link_evidence` on a key with no documentation record fails with the
not-documented error; no state is produced, so nothing is mutated or
persisted (the source raises before any mutation or save). -/
theorem link_evidence_undocumented_error
    (state : ComplianceState) (framework_id control_id : String)
    (evidence : Evidence) (doc_now save_now : DateTime)
    (habsent : assocGet (docKey framework_id control_id) state.controls = none) :
    link_evidence state framework_id control_id evidence doc_now save_now =
      .error ("Control " ++ control_id ++
        " is not documented. Use document_compliance first.") := by
  simp [link_evidence, habsent]

/-- Closed instance of `link_evidence_undocumented_error` on an empty state. -/
theorem link_evidence_undocumented_error_witness :
    link_evidence ⟨"1.0", none, "t0", "t0", []⟩ "fw" "c9"
        ⟨.code, "a.py", none, "x"⟩ "t1" "t1" =
      .error ("Control " ++ "c9" ++
        " is not documented. Use document_compliance first.") :=
  link_evidence_undocumented_error ⟨"1.0", none, "t0", "t0", []⟩ "fw" "c9"
    ⟨.code, "a.py", none, "x"⟩ "t1" "t1" rfl

/-! ### Claims about `get_summary` -/

/-- C3, counterexample: with one catalog control and one documentation record
whose explicit status is `not_addressed`, the five status counts of the
summary sum to 0, not to `total_controls = 1` — the record is counted once in
the explicit `not_addressed` tally and subtracted again in the derived
`not_addressed` field. -/
theorem get_summary_counts_not_total_counterexample :
    ∃ s : ComplianceSummary,
      get_summary
          ⟨"1.0", none, "t0", "t0",
            [("fw:c1", ⟨"c1", "fw", .not_addressed, none, [], none, [], none, none, "t1"⟩)]⟩
          [sampleControl] "fw" = some s ∧
        (s.implemented : Int) + s.partialCnt + s.planned + s.not_applicable + s.not_addressed
          ≠ (s.total_controls : Int) := by
  refine ⟨_, rfl, ?_⟩
  decide

/-- C3, amended: the five status fields of the summary sum to
`total_controls` minus the number of documentation records for the framework
whose explicit status is `not_addressed` (so the spec's invariant holds
exactly when no record carries that explicit status), and the completion
percentage always lies in `[0, 100]`. -/
theorem get_summary_invariant
    (state : ComplianceState) (catalog : List Control) (framework_id : String)
    (hne : catalog ≠ []) :
    ∃ s : ComplianceSummary,
      get_summary state catalog framework_id = some s ∧
        (s.implemented : Int) + s.partialCnt + s.planned + s.not_applicable + s.not_addressed
          = (s.total_controls : Int)
            - count_status state.controls (framework_id ++ ":") .not_addressed ∧
        0 ≤ s.completion_percentage ∧ s.completion_percentage ≤ 100 := by
  have hlen : catalog.length ≠ 0 := by simpa [List.length_eq_zero] using hne
  unfold get_summary
  rw [if_neg hlen]
  refine ⟨_, rfl, ?_, ?_, ?_⟩
  · dsimp only
    ring
  · dsimp only
    refine le_min (by norm_num) ?_
    split
    · positivity
    · norm_num
  · dsimp only
    exact min_le_left _ _

/-- Closed instance of `get_summary_invariant` on a one-control catalog with
an empty state. -/
theorem get_summary_invariant_witness :
    ∃ s : ComplianceSummary,
      get_summary ⟨"1.0", none, "t0", "t0", []⟩ [sampleControl] "fw" = some s ∧
        (s.implemented : Int) + s.partialCnt + s.planned + s.not_applicable + s.not_addressed
          = (s.total_controls : Int)
            - count_status (⟨"1.0", none, "t0", "t0", []⟩ : ComplianceState).controls
                ("fw" ++ ":") .not_addressed ∧
        0 ≤ s.completion_percentage ∧ s.completion_percentage ≤ 100 :=
  get_summary_invariant ⟨"1.0", none, "t0", "t0", []⟩ [sampleControl] "fw"
    (by decide)

/-! ### Claims about `analyze_gap` -/

/-- C4: the reported `coverage_percentage` is
`round((fully_covered + 0.5 * partially_covered) / total_target_controls * 100, 1)`
whenever the target framework has at least one control, and `0` when it has
none (the guard sits inside the `round` call, so no division is attempted). -/
theorem analyze_gap_coverage_percentage
    (current_framework target_framework : String) (implemented : List String)
    (mappings : List ControlMapping) (target_controls : List Control) :
    (target_controls ≠ [] →
      (analyze_gap current_framework target_framework implemented mappings
          target_controls).summary.coverage_percentage
        = pyRound1
            ((((analyze_gap current_framework target_framework implemented mappings
                  target_controls).summary.fully_covered : ℚ)
              + ((analyze_gap current_framework target_framework implemented mappings
                  target_controls).summary.partially_covered : ℚ) * 0.5)
              / ((analyze_gap current_framework target_framework implemented mappings
                  target_controls).summary.total_target_controls : ℚ) * 100)) ∧
    (target_controls = [] →
      (analyze_gap current_framework target_framework implemented mappings
          target_controls).summary.coverage_percentage = 0) := by
  constructor
  · intro h
    have hne : target_controls.isEmpty = false := by
      simp [List.isEmpty_iff, h]
    simp [analyze_gap, hne]
  · intro h
    subst h
    simp [analyze_gap, pyRound1, roundHalfEven]

/-- Closed instance of `analyze_gap_coverage_percentage` on a one-control
target framework. -/
theorem analyze_gap_coverage_percentage_witness :
    (analyze_gap "fwA" "fwB" [] [] [sampleControl]).summary.coverage_percentage
      = pyRound1
          ((((analyze_gap "fwA" "fwB" [] [] [sampleControl]).summary.fully_covered : ℚ)
            + ((analyze_gap "fwA" "fwB" [] [] [sampleControl]).summary.partially_covered : ℚ)
              * 0.5)
            / ((analyze_gap "fwA" "fwB" [] [] [sampleControl]).summary.total_target_controls : ℚ)
            * 100) :=
  (analyze_gap_coverage_percentage "fwA" "fwB" [] [] [sampleControl]).1 (by decide)

theorem isEmpty_false_of_mem {α : Type} {a : α} {l : List α} (h : a ∈ l) :
    l.isEmpty = false := by
  cases l with
  | nil => cases h
  | cons b bs => rfl

theorem mem_eq_broader_of {ms : List ControlMapping} {m : ControlMapping} :
    m ∈ eq_broader_of ms
      ↔ m ∈ ms ∧ (m.relationship = .equivalent ∨ m.relationship = .broader) := by
  simp only [eq_broader_of, List.mem_append, List.mem_filter, decide_eq_true_eq]
  tauto

theorem mem_narrower_of {ms : List ControlMapping} {m : ControlMapping} :
    m ∈ narrower_of ms ↔ m ∈ ms ∧ m.relationship = .narrower := by
  simp [narrower_of, List.mem_filter]

theorem mem_sources_of {l : List ControlMapping} {s : String} :
    s ∈ sources_of l ↔ ∃ m ∈ l, m.source_control_id = s := by
  simp [sources_of, List.mem_dedup, List.mem_map]

theorem mem_implemented_filter {implemented l : List String} {s : String} :
    s ∈ implemented_filter implemented l ↔ s ∈ l ∧ s ∈ implemented := by
  simp [implemented_filter, List.mem_filter]

theorem mem_missing_filter {implemented l : List String} {s : String} :
    s ∈ missing_filter implemented l ↔ s ∈ l ∧ s ∉ implemented := by
  simp [missing_filter, List.mem_filter]

theorem missing_filter_eq_nil {implemented l : List String}
    (h : ∀ s ∈ l, s ∈ implemented) : missing_filter implemented l = [] := by
  rw [missing_filter, List.filter_eq_nil_iff]
  intro s hs
  simp [h s hs]

theorem implemented_filter_eq_nil {implemented l : List String}
    (h : ∀ s ∈ l, s ∉ implemented) : implemented_filter implemented l = [] := by
  rw [implemented_filter, List.filter_eq_nil_iff]
  intro s hs
  simp [h s hs]

/-- Rule 2 of the classification, fully-covered case: when some
equivalent/broader mapping exists and every equivalent/broader source is
implemented, the control classifies fully covered with the implemented
equivalent/broader sources as `covered_by`. -/
theorem classify_control_eq_broader_full
    (implemented : List String) (ms : List ControlMapping)
    (hne : ∃ m ∈ ms, m.relationship = .equivalent ∨ m.relationship = .broader)
    (hall : ∀ m ∈ ms, (m.relationship = .equivalent ∨ m.relationship = .broader) →
      m.source_control_id ∈ implemented) :
    classify_control implemented ms
      = .fully_covered (implemented_filter implemented (sources_of (eq_broader_of ms)))
          "equivalent/broader mappings fully implemented" := by
  obtain ⟨m₀, hm₀, hrel₀⟩ := hne
  have hms : ms.isEmpty = false := isEmpty_false_of_mem hm₀
  have heb₀ : m₀ ∈ eq_broader_of ms := mem_eq_broader_of.2 ⟨hm₀, hrel₀⟩
  have hebne : (eq_broader_of ms).isEmpty = false := isEmpty_false_of_mem heb₀
  have himpl₀ : m₀.source_control_id
      ∈ implemented_filter implemented (sources_of (eq_broader_of ms)) :=
    mem_implemented_filter.2 ⟨mem_sources_of.2 ⟨m₀, heb₀, rfl⟩, hall m₀ hm₀ hrel₀⟩
  have himplne : (implemented_filter implemented
      (sources_of (eq_broader_of ms))).isEmpty = false :=
    isEmpty_false_of_mem himpl₀
  have hmiss : missing_filter implemented (sources_of (eq_broader_of ms)) = [] := by
    apply missing_filter_eq_nil
    intro s hs
    obtain ⟨m, hmeb, rfl⟩ := mem_sources_of.1 hs
    obtain ⟨hm, hrel⟩ := mem_eq_broader_of.1 hmeb
    exact hall m hm hrel
  unfold classify_control
  rw [hms]
  simp [hebne, himplne, hmiss]

/-- Rule 3 of the classification: when no equivalent/broader source is
implemented but some narrower source is, the control classifies partially
covered, with the unimplemented narrower sources as `missing_coverage`. -/
theorem classify_control_narrower_partial
    (implemented : List String) (ms : List ControlMapping)
    (hno : ∀ m ∈ ms, (m.relationship = .equivalent ∨ m.relationship = .broader) →
      m.source_control_id ∉ implemented)
    (hnar : ∃ m ∈ ms, m.relationship = .narrower ∧ m.source_control_id ∈ implemented) :
    classify_control implemented ms
      = .partially_covered (implemented_filter implemented (sources_of (narrower_of ms)))
          (missing_filter implemented (sources_of (narrower_of ms)))
          "source controls are narrower than target; partial coverage inferred" := by
  obtain ⟨m₀, hm₀, hrel₀, himpl₀⟩ := hnar
  have hms : ms.isEmpty = false := isEmpty_false_of_mem hm₀
  have himpl_eb : implemented_filter implemented (sources_of (eq_broader_of ms)) = [] := by
    apply implemented_filter_eq_nil
    intro s hs
    obtain ⟨m, hmeb, rfl⟩ := mem_sources_of.1 hs
    obtain ⟨hm, hrel⟩ := mem_eq_broader_of.1 hmeb
    exact hno m hm hrel
  have hn₀ : m₀ ∈ narrower_of ms := mem_narrower_of.2 ⟨hm₀, hrel₀⟩
  have hnarne : (narrower_of ms).isEmpty = false := isEmpty_false_of_mem hn₀
  have himn : m₀.source_control_id
      ∈ implemented_filter implemented (sources_of (narrower_of ms)) :=
    mem_implemented_filter.2 ⟨mem_sources_of.2 ⟨m₀, hn₀, rfl⟩, himpl₀⟩
  have himnne : (implemented_filter implemented
      (sources_of (narrower_of ms))).isEmpty = false :=
    isEmpty_false_of_mem himn
  unfold classify_control
  rw [hms]
  simp [himpl_eb, hnarne, himnne]

/-- C1: a target control with at least one equivalent/broader mapping, all of
whose equivalent/broader sources are implemented, lands in `already_covered`
with `covered_by` equal (as a set) to those sources — additional narrower or
related mappings notwithstanding. -/
theorem analyze_gap_equivalent_broader_fully_covered
    (current_framework target_framework : String)
    (implemented : List String) (mappings : List ControlMapping)
    (target_controls : List Control) (t : Control) (ht : t ∈ target_controls)
    (hne : ∃ m ∈ mappings_for mappings t.id,
      m.relationship = .equivalent ∨ m.relationship = .broader)
    (hall : ∀ m ∈ mappings_for mappings t.id,
      (m.relationship = .equivalent ∨ m.relationship = .broader) →
        m.source_control_id ∈ implemented) :
    ∃ cb,
      CoveredEntry.mk t.id t.name cb "equivalent/broader mappings fully implemented"
          ∈ (analyze_gap current_framework target_framework implemented mappings
              target_controls).already_covered ∧
        ∀ s, s ∈ cb ↔ ∃ m ∈ mappings_for mappings t.id,
          (m.relationship = .equivalent ∨ m.relationship = .broader)
            ∧ m.source_control_id = s := by
  have hclass := classify_control_eq_broader_full implemented
    (mappings_for mappings t.id) hne hall
  refine ⟨implemented_filter implemented
    (sources_of (eq_broader_of (mappings_for mappings t.id))), ?_, ?_⟩
  · simp only [analyze_gap]
    exact List.mem_filterMap.2 ⟨t, ht, by rw [hclass]⟩
  · intro s
    constructor
    · intro hs
      obtain ⟨hsrc, himpl⟩ := mem_implemented_filter.1 hs
      obtain ⟨m, hmeb, rfl⟩ := mem_sources_of.1 hsrc
      obtain ⟨hm, hrel⟩ := mem_eq_broader_of.1 hmeb
      exact ⟨m, hm, hrel, rfl⟩
    · rintro ⟨m, hm, hrel, rfl⟩
      exact mem_implemented_filter.2
        ⟨mem_sources_of.2 ⟨m, mem_eq_broader_of.2 ⟨hm, hrel⟩, rfl⟩, hall m hm hrel⟩

/-- Closed instance of `analyze_gap_equivalent_broader_fully_covered`: the
spec's scenario of one implemented equivalent source plus one unimplemented
narrower source for the same target control. -/
theorem analyze_gap_equivalent_broader_fully_covered_witness :
    ∃ cb,
      CoveredEntry.mk "B-1" "B1" cb "equivalent/broader mappings fully implemented"
          ∈ (analyze_gap "fwA" "fwB" ["A-1"]
              [⟨"A-1", "fwA", "B-1", "fwB", .equivalent⟩,
               ⟨"A-2", "fwA", "B-1", "fwB", .narrower⟩]
              [⟨"B-1", "B1", "d", "fwB", "", "", "", "", [], [], []⟩]).already_covered ∧
        ∀ s, s ∈ cb ↔ ∃ m ∈ mappings_for
            [⟨"A-1", "fwA", "B-1", "fwB", .equivalent⟩,
             ⟨"A-2", "fwA", "B-1", "fwB", .narrower⟩]
            (Control.mk "B-1" "B1" "d" "fwB" "" "" "" "" [] [] []).id,
          (m.relationship = .equivalent ∨ m.relationship = .broader)
            ∧ m.source_control_id = s :=
  analyze_gap_equivalent_broader_fully_covered "fwA" "fwB" ["A-1"]
    [⟨"A-1", "fwA", "B-1", "fwB", .equivalent⟩,
     ⟨"A-2", "fwA", "B-1", "fwB", .narrower⟩]
    [⟨"B-1", "B1", "d", "fwB", "", "", "", "", [], [], []⟩]
    ⟨"B-1", "B1", "d", "fwB", "", "", "", "", [], [], []⟩
    (by decide) (by decide) (by decide)

/-- C2: a target control none of whose equivalent/broader sources are
implemented but with at least one implemented narrower source lands in
`partially_covered` (never in `already_covered`), with `missing_coverage`
equal (as a set) to the unimplemented narrower sources. -/
theorem analyze_gap_narrower_partially_covered
    (current_framework target_framework : String)
    (implemented : List String) (mappings : List ControlMapping)
    (target_controls : List Control) (t : Control) (ht : t ∈ target_controls)
    (hno : ∀ m ∈ mappings_for mappings t.id,
      (m.relationship = .equivalent ∨ m.relationship = .broader) →
        m.source_control_id ∉ implemented)
    (hnar : ∃ m ∈ mappings_for mappings t.id,
      m.relationship = .narrower ∧ m.source_control_id ∈ implemented) :
    ∃ cb mc,
      PartialEntry.mk t.id t.name cb mc
          "source controls are narrower than target; partial coverage inferred"
          ∈ (analyze_gap current_framework target_framework implemented mappings
              target_controls).partially_covered ∧
        (∀ s, s ∈ mc ↔ (∃ m ∈ mappings_for mappings t.id,
          m.relationship = .narrower ∧ m.source_control_id = s) ∧ s ∉ implemented) ∧
        ∀ e ∈ (analyze_gap current_framework target_framework implemented mappings
            target_controls).already_covered, e.control_id ≠ t.id := by
  have hclass := classify_control_narrower_partial implemented
    (mappings_for mappings t.id) hno hnar
  refine ⟨implemented_filter implemented
      (sources_of (narrower_of (mappings_for mappings t.id))),
    missing_filter implemented
      (sources_of (narrower_of (mappings_for mappings t.id))), ?_, ?_, ?_⟩
  · simp only [analyze_gap]
    exact List.mem_filterMap.2 ⟨t, ht, by rw [hclass]⟩
  · intro s
    constructor
    · intro hs
      obtain ⟨hsrc, himpl⟩ := mem_missing_filter.1 hs
      obtain ⟨m, hmn, rfl⟩ := mem_sources_of.1 hsrc
      obtain ⟨hm, hrel⟩ := mem_narrower_of.1 hmn
      exact ⟨⟨m, hm, hrel, rfl⟩, himpl⟩
    · rintro ⟨⟨m, hm, hrel, rfl⟩, himpl⟩
      exact mem_missing_filter.2
        ⟨mem_sources_of.2 ⟨m, mem_narrower_of.2 ⟨hm, hrel⟩, rfl⟩, himpl⟩
  · intro e he heq
    simp only [analyze_gap] at he
    obtain ⟨t', ht', hft'⟩ := List.mem_filterMap.1 he
    cases hc : classify_control implemented (mappings_for mappings t'.id) with
    | fully_covered cb rs =>
        rw [hc] at hft'
        have he' : e = ⟨t'.id, t'.name, cb, rs⟩ := by
          simpa using hft'.symm
        have hid : t'.id = t.id := by
          rw [he'] at heq
          exact heq
        rw [hid] at hc
        rw [hclass] at hc
        exact Bucket.noConfusion hc
    | partially_covered cb mc rs =>
        rw [hc] at hft'
        exact Option.noConfusion hft'
    | gap r =>
        rw [hc] at hft'
        exact Option.noConfusion hft'

/-- Closed instance of `analyze_gap_narrower_partially_covered`: the spec's
scenario of a target control mapped only via two narrower sources, one
implemented. -/
theorem analyze_gap_narrower_partially_covered_witness :
    ∃ cb mc,
      PartialEntry.mk "B-1" "B1" cb mc
          "source controls are narrower than target; partial coverage inferred"
          ∈ (analyze_gap "fwA" "fwB" ["A-1"]
              [⟨"A-1", "fwA", "B-1", "fwB", .narrower⟩,
               ⟨"A-2", "fwA", "B-1", "fwB", .narrower⟩]
              [⟨"B-1", "B1", "d", "fwB", "", "", "", "", [], [], []⟩]).partially_covered ∧
        (∀ s, s ∈ mc ↔ (∃ m ∈ mappings_for
            [⟨"A-1", "fwA", "B-1", "fwB", .narrower⟩,
             ⟨"A-2", "fwA", "B-1", "fwB", .narrower⟩]
            (Control.mk "B-1" "B1" "d" "fwB" "" "" "" "" [] [] []).id,
          m.relationship = .narrower ∧ m.source_control_id = s) ∧ s ∉ ["A-1"]) ∧
        ∀ e ∈ (analyze_gap "fwA" "fwB" ["A-1"]
            [⟨"A-1", "fwA", "B-1", "fwB", .narrower⟩,
             ⟨"A-2", "fwA", "B-1", "fwB", .narrower⟩]
            [⟨"B-1", "B1", "d", "fwB", "", "", "", "", [], [], []⟩]).already_covered,
          e.control_id ≠ "B-1" :=
  analyze_gap_narrower_partially_covered "fwA" "fwB" ["A-1"]
    [⟨"A-1", "fwA", "B-1", "fwB", .narrower⟩,
     ⟨"A-2", "fwA", "B-1", "fwB", .narrower⟩]
    [⟨"B-1", "B1", "d", "fwB", "", "", "", "", [], [], []⟩]
    ⟨"B-1", "B1", "d", "fwB", "", "", "", "", [], [], []⟩
    (by decide) (by decide) (by decide)

/-! ### Round-trip of the persisted state document -/

theorem parseStatus_dump (st : ControlStatus) : parseStatus (dumpStatus st) = some st := by
  cases st <;> rfl

theorem parseOptStatus_dump (o : Option ControlStatus) :
    parseOptStatus (match o with | none => Json.null | some st => dumpStatus st) = some o := by
  rcases o with _ | st
  · rfl
  · cases st <;> rfl

theorem parseEvidenceType_dump (t : EvidenceType) :
    parseEvidenceType (dumpEvidenceType t) = some t := by
  cases t <;> rfl

theorem parseOptStr_dump (o : Option String) : parseOptStr (dumpOptStr o) = some o := by
  cases o <;> rfl

theorem parseLineRange_dump (lr : Option (Int × Int)) :
    parseLineRange (dumpLineRange lr) = some lr := by
  rcases lr with _ | ⟨a, b⟩ <;> rfl

theorem parseEvidence_dump (e : Evidence) : parseEvidence (dumpEvidence e) = some e := by
  obtain ⟨t, p, lr, d⟩ := e
  cases t <;> rcases lr with _ | ⟨a, b⟩ <;> rfl

theorem parseList_map_dump {α : Type} (f : Json → Option α) (g : α → Json)
    (h : ∀ x, f (g x) = some x) : ∀ l : List α, parseList f (l.map g) = some l
  | [] => rfl
  | x :: rest => by
      simp [parseList, h x, parseList_map_dump f g h rest]

theorem parseStrFields_dump :
    ∀ l : List (String × String),
      parseStrFields (l.map (fun p => (p.1, Json.str p.2))) = some l
  | [] => rfl
  | (k, v) :: rest => by
      simp [parseStrFields, parseStrFields_dump rest]

theorem parseStrPairs_dump (l : List (String × String)) :
    parseStrPairs (dumpStrPairs l) = some l := by
  simp [dumpStrPairs, parseStrPairs, parseStrFields_dump l]

set_option maxHeartbeats 1000000 in
theorem parseDoc_dump (d : ControlDocumentation) : parseDoc (dumpDoc d) = some d := by
  obtain ⟨cid, fid, st, dst, dss, isum, ev, ow, no, lu⟩ := d
  simp only [dumpDoc, parseDoc, parseStatus_dump, parseOptStatus_dump, parseOptStr_dump,
    parseList_map_dump parseStrPairs dumpStrPairs parseStrPairs_dump,
    parseList_map_dump parseEvidence dumpEvidence parseEvidence_dump]

theorem parseDocFields_dump :
    ∀ l : List (String × ControlDocumentation),
      parseDocFields (l.map (fun p => (p.1, dumpDoc p.2))) = some l
  | [] => rfl
  | (k, d) :: rest => by
      simp [parseDocFields, parseDoc_dump d, parseDocFields_dump rest]

/-- Reloading any compliance state from its persisted document restores it
exactly (every record, every field, evidence order included). -/
theorem parseState_dump (s : ComplianceState) : parseState (dumpState s) = some s := by
  obtain ⟨v, pn, ca, ua, ctrls⟩ := s
  simp [dumpState, parseState, parseOptStr_dump, parseDocFields_dump ctrls]

/-- C7: after `document_control`, reloading the state from the persisted
document yields the state that was saved — in particular the record stored
for the documented key comes back identical in every field, including the
evidence list and its order. -/
theorem document_control_reload_roundtrip
    (state : ComplianceState) (doc : ControlDocumentation) (doc_now save_now : DateTime) :
    parseState (dumpState (document_control state doc doc_now save_now))
        = some (document_control state doc doc_now save_now) ∧
      ∃ stored : ControlDocumentation,
        assocGet (docKey doc.framework_id doc.control_id)
          (document_control state doc doc_now save_now).controls = some stored := by
  refine ⟨parseState_dump _, ?_⟩
  unfold document_control
  exact ⟨_, assocGet_assocPut_self _ _ _⟩

/-! ### Synthesized mappings: extraction facts -/

theorem isEmpty_false_of_ne_nil {α : Type} {l : List α} (h : l ≠ []) :
    l.isEmpty = false := by
  cases l with
  | nil => exact absurd rfl h
  | cons a as => rfl

theorem takeWhile_append_all {α : Type} {p : α → Bool} {l₁ l₂ : List α}
    (h : ∀ a ∈ l₁, p a = true) :
    (l₁ ++ l₂).takeWhile p = l₁ ++ l₂.takeWhile p := by
  induction l₁ with
  | nil => simp
  | cons a l ih =>
      simp only [List.cons_append, List.takeWhile_cons, h a (List.mem_cons_self a l), if_true,
        ih (fun x hx => h x (List.mem_cons_of_mem a hx))]

theorem dropWhile_append_all {α : Type} {p : α → Bool} {l₁ l₂ : List α}
    (h : ∀ a ∈ l₁, p a = true) :
    (l₁ ++ l₂).dropWhile p = l₂.dropWhile p := by
  induction l₁ with
  | nil => simp
  | cons a l ih =>
      simp only [List.cons_append, List.dropWhile_cons, h a (List.mem_cons_self a l), if_true,
        ih (fun x hx => h x (List.mem_cons_of_mem a hx))]

theorem takeWhile_eq_self_of_all {α : Type} {p : α → Bool} {l : List α}
    (h : ∀ a ∈ l, p a = true) : l.takeWhile p = l := by
  induction l with
  | nil => simp
  | cons a l ih =>
      simp only [List.takeWhile_cons, h a (List.mem_cons_self a l), if_true,
        ih (fun x hx => h x (List.mem_cons_of_mem a hx))]

theorem dropWhile_eq_nil_of_all {α : Type} {p : α → Bool} {l : List α}
    (h : ∀ a ∈ l, p a = true) : l.dropWhile p = [] := by
  induction l with
  | nil => simp
  | cons a l ih =>
      simp only [List.dropWhile_cons, h a (List.mem_cons_self a l), if_true,
        ih (fun x hx => h x (List.mem_cons_of_mem a hx))]

theorem takeWhile_cons_neg {α : Type} {p : α → Bool} {a : α} {l : List α}
    (h : p a = false) : (a :: l).takeWhile p = [] := by
  simp [List.takeWhile_cons, h]

theorem dropWhile_cons_neg {α : Type} {p : α → Bool} {a : α} {l : List α}
    (h : p a = false) : (a :: l).dropWhile p = a :: l := by
  simp [List.dropWhile_cons, h]

theorem idShapeB_plain {a b : Char} {ds : List Char}
    (ha : a.isUpper = true) (hb : b.isUpper = true)
    (hne : ds ≠ []) (hall : ∀ c ∈ ds, c.isDigit = true) :
    idShapeB (a :: b :: '-' :: ds) = true := by
  simp only [idShapeB, ha, hb, Bool.true_and]
  rw [takeWhile_eq_self_of_all hall, dropWhile_eq_nil_of_all hall]
  simp [isEmpty_false_of_ne_nil hne]

theorem idShapeB_enh {a b : Char} {ds es : List Char}
    (ha : a.isUpper = true) (hb : b.isUpper = true)
    (hdne : ds ≠ []) (hdall : ∀ c ∈ ds, c.isDigit = true)
    (hene : es ≠ []) (heall : ∀ c ∈ es, c.isDigit = true) :
    idShapeB (a :: b :: '-' :: (ds ++ '(' :: (es ++ [')']))) = true := by
  simp only [idShapeB, ha, hb, Bool.true_and]
  rw [takeWhile_append_all hdall, dropWhile_append_all hdall,
    takeWhile_cons_neg (by decide : ('(').isDigit = false),
    dropWhile_cons_neg (by decide : ('(').isDigit = false)]
  simp only [List.append_nil, isEmpty_false_of_ne_nil hdne, Bool.not_false, Bool.true_and]
  rw [takeWhile_append_all heall, dropWhile_append_all heall,
    takeWhile_cons_neg (by decide : (')').isDigit = false),
    dropWhile_cons_neg (by decide : (')').isDigit = false)]
  simp [isEmpty_false_of_ne_nil hene]

theorem tryMatchEnh_spec {a b : Char} {ds r2 id r : List Char}
    (ha : a.isUpper = true) (hb : b.isUpper = true)
    (hne : ds ≠ []) (hall : ∀ c ∈ ds, c.isDigit = true)
    (h : tryMatchEnh a b ds r2 = some (id, r)) :
    idShapeB id = true ∧ id ++ r = a :: b :: '-' :: (ds ++ r2) := by
  unfold tryMatchEnh at h
  split at h
  case h_1 r3 =>
      dsimp only at h
      split at h
      case h_1 r5 heq =>
          split at h
          case isTrue hcond =>
              obtain ⟨hid, hr⟩ := Prod.mk.injEq .. ▸ Option.some.injEq .. ▸ h
              have hene : r3.takeWhile (·.isDigit) ≠ [] := by
                intro hnil
                rw [hnil] at hcond
                simp at hcond
              have heall : ∀ c ∈ r3.takeWhile (·.isDigit), c.isDigit = true :=
                fun c hc => List.mem_takeWhile_imp hc
              have hr3 : r3 = r3.takeWhile (·.isDigit) ++ ')' :: r5 := by
                conv_lhs => rw [← List.takeWhile_append_dropWhile (p := (·.isDigit)) (l := r3)]
                rw [heq]
              constructor
              · rw [← hid]
                exact idShapeB_enh ha hb hne hall hene heall
              · rw [← hid, ← hr]
                simp only [List.cons_append, List.append_assoc, List.nil_append]
                rw [← hr3]
          case isFalse hcond =>
              obtain ⟨hid, hr⟩ := Prod.mk.injEq .. ▸ Option.some.injEq .. ▸ h
              refine ⟨by rw [← hid]; exact idShapeB_plain ha hb hne hall, ?_⟩
              rw [← hid, ← hr]
              simp
      case h_2 =>
          obtain ⟨hid, hr⟩ := Prod.mk.injEq .. ▸ Option.some.injEq .. ▸ h
          refine ⟨by rw [← hid]; exact idShapeB_plain ha hb hne hall, ?_⟩
          rw [← hid, ← hr]
          simp
  case h_2 c r3 =>
      split at h
      · exact absurd h (by simp)
      · obtain ⟨hid, hr⟩ := Prod.mk.injEq .. ▸ Option.some.injEq .. ▸ h
        refine ⟨by rw [← hid]; exact idShapeB_plain ha hb hne hall, ?_⟩
        rw [← hid, ← hr]
        simp
  case h_3 =>
      obtain ⟨hid, hr⟩ := Prod.mk.injEq .. ▸ Option.some.injEq .. ▸ h
      refine ⟨by rw [← hid]; exact idShapeB_plain ha hb hne hall, ?_⟩
      rw [← hid, ← hr]
      simp

theorem tryMatchDigits_spec {a b : Char} {rest id r : List Char}
    (ha : a.isUpper = true) (hb : b.isUpper = true)
    (h : tryMatchDigits a b rest = some (id, r)) :
    idShapeB id = true ∧ id ++ r = a :: b :: '-' :: rest := by
  unfold tryMatchDigits at h
  dsimp only at h
  split at h
  · exact absurd h (by simp)
  case isFalse hne =>
      have hall : ∀ c ∈ rest.takeWhile (·.isDigit), c.isDigit = true :=
        fun c hc => List.mem_takeWhile_imp hc
      have hne' : rest.takeWhile (·.isDigit) ≠ [] := by
        intro hnil
        rw [hnil] at hne
        simp at hne
      obtain ⟨hshape, happ⟩ := tryMatchEnh_spec ha hb hne' hall h
      refine ⟨hshape, ?_⟩
      rw [happ, List.takeWhile_append_dropWhile]

theorem tryMatchCore_spec {s id r : List Char}
    (h : tryMatchCore s = some (id, r)) :
    idShapeB id = true ∧ id ++ r = s := by
  unfold tryMatchCore at h
  split at h
  case h_1 a b rest =>
      split at h
      case isTrue hab =>
          obtain ⟨ha, hb⟩ := Bool.and_eq_true_iff.1 hab
          exact tryMatchDigits_spec ha hb h
      case isFalse => exact absurd h (by simp)
  case h_2 => exact absurd h (by simp)

theorem tryMatch_spec {prev : Option Char} {s id r : List Char}
    (h : tryMatch prev s = some (id, r)) :
    idShapeB id = true ∧ id ++ r = s := by
  unfold tryMatch at h
  split at h
  · exact absurd h (by simp)
  · exact tryMatchCore_spec h

theorem idShapeB_ne_nil {l : List Char} (h : idShapeB l = true) : l ≠ [] := by
  intro hnil
  rw [hnil] at h
  simp [idShapeB] at h

theorem findIdsAux_spec :
    ∀ (fuel : Nat) (prev : Option Char) (s id : List Char),
      id ∈ findIdsAux fuel prev s → idShapeB id = true ∧ id <:+: s := by
  intro fuel
  induction fuel with
  | zero =>
      intro prev s id h
      simp [findIdsAux] at h
  | succ n ih =>
      intro prev s id h
      cases s with
      | nil => simp [findIdsAux] at h
      | cons c rest =>
          rw [findIdsAux] at h
          cases htm : tryMatch prev (c :: rest) with
          | some pr =>
              obtain ⟨m, r⟩ := pr
              rw [htm] at h
              obtain ⟨hshape, happ⟩ := tryMatch_spec htm
              rcases List.mem_cons.1 h with hid | hid
              · subst hid
                exact ⟨hshape, [], r, by simpa using happ⟩
              · obtain ⟨hsh, u, v, huv⟩ := ih (some (m.getLastD c)) r id hid
                exact ⟨hsh, m ++ u, v, by rw [← happ, ← huv]; simp⟩
          | none =>
              rw [htm] at h
              obtain ⟨hsh, u, v, huv⟩ := ih (some c) rest id h
              exact ⟨hsh, c :: u, v, by rw [← huv]; simp⟩

theorem extract_control_ids_spec {reference target_framework id : String}
    (h : id ∈ extract_control_ids reference target_framework) :
    target_framework = "nist-800-53-r5" ∧
      (containsSub "800-53" reference || containsSub "SP 800-53" reference) = true ∧
      idShapeB id.data = true ∧ id.data <:+: reference.data := by
  unfold extract_control_ids at h
  split at h
  case isFalse => simp at h
  case isTrue htf =>
      split at h
      case isTrue => simp at h
      case isFalse hcond =>
          refine ⟨htf, ?_, ?_⟩
          · cases h₁ : containsSub "800-53" reference <;>
              cases h₂ : containsSub "SP 800-53" reference <;>
              simp_all
          · unfold findControlIds at h
            obtain ⟨l₀, hl₀, rfl⟩ := List.mem_map.1 h
            exact findIdsAux_spec _ none reference.data l₀ hl₀

theorem get_control_details_of_mem {data : CatalogData} {framework_id : String}
    {ctrl : Control} (h : ctrl ∈ extract_controls data framework_id) :
    ∃ c₀ d, get_control_details (some data) framework_id ctrl.id = some d ∧
      c₀ ∈ extract_controls data framework_id ∧ c₀.id = ctrl.id ∧
      d.informative_references = c₀.informative_references := by
  have hfind : ((extract_controls data framework_id).find?
      (fun c => decide (c.id = ctrl.id))).isSome := by
    rw [List.find?_isSome]
    exact ⟨ctrl, h, by simp⟩
  obtain ⟨c₀, hc₀⟩ := Option.isSome_iff_exists.1 hfind
  refine ⟨c₀, ⟨c₀, get_related_controls data ctrl.id, get_control_mappings data ctrl.id⟩,
    ?_, List.mem_of_find?_eq_some hc₀, ?_, rfl⟩
  · unfold get_control_details
    dsimp only
    rw [hc₀]
  · simpa using List.find?_some hc₀

/-- C8: with no explicit mapping document for the pair, every mapping the
store produces is synthesized: relationship `related`, source/target
frameworks as requested, and the target control id extracted — in
two-letter-family + hyphen + digits + optional parenthesized-enhancement
form — from an informative-reference string of a source-framework control
with that source id, a reference that textually mentions the 800-53
publication name.  (References with no such ids contribute no mappings, as
this characterization's contrapositive shows, and no error is possible.) -/
theorem load_mappings_synthesized_related
    (data? : Option CatalogData) (source_framework target_framework : String)
    (m : ControlMapping)
    (h : m ∈ load_mappings none data? source_framework target_framework) :
    m.relationship = .related ∧
      m.source_framework_id = source_framework ∧
      m.target_framework_id = target_framework ∧
      ∃ c ∈ list_controls data? source_framework none none,
        c.id = m.source_control_id ∧
        ∃ ref ∈ c.informative_references,
          (containsSub "800-53" ref || containsSub "SP 800-53" ref) = true ∧
          idShapeB m.target_control_id.data = true ∧
          m.target_control_id.data <:+: ref.data := by
  simp only [load_mappings] at h
  unfold generate_mappings_from_references at h
  obtain ⟨ctrl, hctrl, hm⟩ := List.mem_flatMap.1 h
  cases data? with
  | none => simp [list_controls] at hctrl
  | some data =>
      have hctrl' : ctrl ∈ extract_controls data source_framework := by
        simpa [list_controls, truthy] using hctrl
      obtain ⟨c₀, d, hd, hc₀mem, hc₀id, hrefs⟩ := get_control_details_of_mem hctrl'
      rw [hd] at hm
      obtain ⟨ref, href, hm2⟩ := List.mem_flatMap.1 hm
      obtain ⟨tid, htid, rfl⟩ := List.mem_map.1 hm2
      obtain ⟨htf, hcontains, hshape, hinf⟩ := extract_control_ids_spec htid
      refine ⟨rfl, rfl, rfl, c₀, ?_, hc₀id, ref, ?_, hcontains, hshape, hinf⟩
      · simpa [list_controls, truthy] using hc₀mem
      · rw [← hrefs]
        exact href

/-- Closed instance of `load_mappings_synthesized_related`: one CSF control
whose informative reference mentions SP 800-53 and embeds `AC-1`. -/
theorem load_mappings_synthesized_related_witness :
    (ControlMapping.mk "PR.AC-01" "nist-csf-2.0" "AC-1" "nist-800-53-r5"
        .related).relationship = .related ∧
      (ControlMapping.mk "PR.AC-01" "nist-csf-2.0" "AC-1" "nist-800-53-r5"
        .related).source_framework_id = "nist-csf-2.0" ∧
      (ControlMapping.mk "PR.AC-01" "nist-csf-2.0" "AC-1" "nist-800-53-r5"
        .related).target_framework_id = "nist-800-53-r5" ∧
      ∃ c ∈ list_controls
          (some (CatalogData.flat [] []
            [⟨some "PR.AC-01", some "Access Control", some "d", some "PR.AC", some [],
              some ["NIST SP 800-53 Rev. 5: AC-1"], some []⟩]))
          "nist-csf-2.0" none none,
        c.id = (ControlMapping.mk "PR.AC-01" "nist-csf-2.0" "AC-1" "nist-800-53-r5"
          .related).source_control_id ∧
        ∃ ref ∈ c.informative_references,
          (containsSub "800-53" ref || containsSub "SP 800-53" ref) = true ∧
          idShapeB (ControlMapping.mk "PR.AC-01" "nist-csf-2.0" "AC-1" "nist-800-53-r5"
            .related).target_control_id.data = true ∧
          (ControlMapping.mk "PR.AC-01" "nist-csf-2.0" "AC-1" "nist-800-53-r5"
            .related).target_control_id.data <:+: ref.data :=
  load_mappings_synthesized_related
    (some (CatalogData.flat [] []
      [⟨some "PR.AC-01", some "Access Control", some "d", some "PR.AC", some [],
        some ["NIST SP 800-53 Rev. 5: AC-1"], some []⟩]))
    "nist-csf-2.0" "nist-800-53-r5"
    (ControlMapping.mk "PR.AC-01" "nist-csf-2.0" "AC-1" "nist-800-53-r5" .related)
    (by decide)

/-! ### Related controls in `get_control_details` -/

/-- C9, counterexample: in the nested "functions" catalog shape, `B` shares
category `C` with the requested control `A`, yet `related_controls` comes
back empty — `_get_related_controls` only reads the flat `subcategories`
key, which the nested shape does not have. -/
theorem get_control_details_related_nested_counterexample :
    ∃ d : ControlDetails,
      get_control_details (some exNestedCatalog) "fw" "A" = some d ∧
        d.related_controls = [] ∧
        ((extract_controls exNestedCatalog "fw").filter
          (fun c => decide (c.category_id = d.category_id) && decide (c.id ≠ "A"))).map
          (·.id) = ["B"] ∧
        ([] : List String) ≠ ["B"] := by
  refine ⟨_, rfl, ?_, ?_, ?_⟩
  · rfl
  · decide
  · decide

/-- C9, amended: when the catalog document is in the flat "subcategories"
shape and the requested id is an entry's explicit (non-empty) id,
`related_controls` is exactly the ids of the other catalog controls sharing
the requested control's category; in every shape without a top-level
`subcategories` key (the elements, nested-functions and controls shapes) it
is empty. -/
theorem get_control_details_related_controls
    (data : CatalogData) (framework_id control_id : String) (d : ControlDetails)
    (hd : get_control_details (some data) framework_id control_id = some d) :
    (∀ fns cats subs, data = .flat fns cats subs → control_id ≠ "" →
      d.related_controls =
        ((extract_controls data framework_id).filter
          (fun c => decide (c.category_id = d.category_id)
            && decide (c.id ≠ control_id))).map (·.id)) ∧
    (dataSubcategories data = [] → d.related_controls = []) := by
  unfold get_control_details at hd
  dsimp only at hd
  cases hfind : (extract_controls data framework_id).find?
      (fun c => decide (c.id = control_id)) with
  | none =>
      rw [hfind] at hd
      exact absurd hd (by simp)
  | some req =>
  rw [hfind] at hd
  have hdval : d = ⟨req, get_related_controls data control_id,
      get_control_mappings data control_id⟩ := (Option.some.inj hd).symm
  subst hdval
  constructor
  · rintro fns cats subs rfl hcid
    have hpred : ((fun c : Control => decide (c.id = control_id))
        ∘ flatControlOf fns cats framework_id)
        = fun sub : RawSub => decide (sub.id = some control_id) := by
      funext sub
      simp only [Function.comp_apply, decide_eq_decide]
      rcases hsid : sub.id with _ | x
      · simp [flatControlOf, hsid, Ne.symm hcid]
      · simp [flatControlOf, hsid]
    simp only [extract_controls] at hfind
    rw [List.find?_map, hpred] at hfind
    obtain ⟨sub₀, hsub₀, hconv⟩ := Option.map_eq_some'.1 hfind
    have hrel : get_related_controls (.flat fns cats subs) control_id
        = (subs.filter (fun other =>
            decide (other.category_id.getD "" = sub₀.category_id.getD "")
              && decide (other.id.getD "" ≠ control_id))).map (fun o => o.id.getD "") := by
      unfold get_related_controls
      simp only [dataSubcategories]
      rw [hsub₀]
    show get_related_controls (.flat fns cats subs) control_id = _
    rw [hrel]
    simp only [extract_controls, List.filter_map, List.map_map]
    have hfilter : ((fun c : Control => decide
          (c.category_id = (⟨req, get_related_controls (.flat fns cats subs) control_id,
            get_control_mappings (.flat fns cats subs) control_id⟩ : ControlDetails).category_id)
          && decide (c.id ≠ control_id)) ∘ flatControlOf fns cats framework_id)
        = fun other : RawSub =>
            decide (other.category_id.getD "" = sub₀.category_id.getD "")
              && decide (other.id.getD "" ≠ control_id) := by
      funext other
      have hcat : (⟨req, get_related_controls (.flat fns cats subs) control_id,
          get_control_mappings (.flat fns cats subs) control_id⟩ :
            ControlDetails).category_id = sub₀.category_id.getD "" := by
        rw [← hconv]
        rfl
      rw [Function.comp_apply, hcat]
      rfl
    rw [hfilter]
    rfl
  · intro hsubs
    show get_related_controls data control_id = []
    unfold get_related_controls
    rw [hsubs]
    rfl

/-- Closed instance of `get_control_details_related_controls` on the flat
two-subcategory catalog. -/
theorem get_control_details_related_controls_witness :
    ∃ d : ControlDetails,
      get_control_details (some exFlatCatalog) "fw" "A" = some d ∧
        d.related_controls =
          ((extract_controls exFlatCatalog "fw").filter
            (fun c => decide (c.category_id = d.category_id)
              && decide (c.id ≠ "A"))).map (·.id) := by
  refine ⟨_, rfl, ?_⟩
  exact (get_control_details_related_controls exFlatCatalog "fw" "A" _ rfl).1
    _ _ _ rfl (by decide)

end ComplianceOracle
